import Mathlib

/-!
Shallow embedding of the Windows audio recorder plugin
(`windows/runner/audio_recorder_plugin.h` / `.cpp`).

The embedding covers the method-channel control surface
(`HandleMethodCall`, `StartRecording`, `StopRecording`, `IsRecording`,
`HasPermission`) and the capture/encode worker (`RecordingThread`,
lines 140-378 of the `.cpp`).  Every fallible Media Foundation call is given
its outcome by an explicit environment (`SetupEnv` for the setup sequence,
a list of `ReadEvent` for the `ReadSample` loop, and `stopAt` for the
iteration at which the worker first observes `stop_requested_` as set).
The worker is then a pure function from that environment to the ordered
trace of platform calls it attempted, a ledger of the native resources it
still holds when it returns, the final value of the shared `is_recording_`
flag, and the reason it exited.
-/

namespace AudioRecorder

/-- Value found in a standard-method-codec argument map, to the extent the
plugin inspects it (`std::get_if<std::string>`): a string, or some
non-string encodable value. -/
inductive ArgVal where
  | str : String → ArgVal
  | nonStr : ArgVal
deriving DecidableEq

/-- Value carried by a successful flutter MethodResult reply. -/
inductive RetVal where
  | rbool : Bool → RetVal
  | rstr : String → RetVal
deriving DecidableEq

/-- Reply sent through the flutter MethodResult: Success, Error(code,
message), or NotImplemented. -/
inductive MethodResult where
  | success : RetVal → MethodResult
  | error : String → String → MethodResult
  | notImplemented : MethodResult
deriving DecidableEq

/-- An incoming method call: its name and its (optional) argument map.
`arguments = none` models arguments that are absent or not an
EncodableMap (the `std::get_if<flutter::EncodableMap>` failure). -/
structure MethodCall where
  method_name : String
  arguments : Option (List (String × ArgVal))

/-- Lookup in the argument map, mirroring `args->find(EncodableValue("path"))`:
first entry whose key matches. -/
def findArg (m : List (String × ArgVal)) (k : String) : Option ArgVal :=
  match m with
  | [] => none
  | (k2, v) :: rest => if k2 = k then some v else findArg rest k

/-- The path the startRecording handler extracts, when the three nested
checks of lines 63-68 succeed: arguments are a map, a "path" key exists,
and its value is a string. -/
def extractPath (args : Option (List (String × ArgVal))) : Option String :=
  match args with
  | none => none
  | some m =>
    match findArg m "path" with
    | some (ArgVal.str s) => some s
    | some ArgVal.nonStr => none
    | none => none

/-- Control-thread-visible state of the plugin object
(`audio_recorder_plugin.h` lines 44-48).  `threadsLaunched` counts
assignments to `recording_thread_`, i.e. workers ever launched. -/
structure PluginState where
  current_file_path_ : String
  is_recording_ : Bool
  stop_requested_ : Bool
  threadsLaunched : Nat
deriving DecidableEq

/-- The freshly constructed plugin: flags false, empty path, no worker. -/
def initialState : PluginState :=
  { current_file_path_ := "", is_recording_ := false, stop_requested_ := false,
    threadsLaunched := 0 }

/-- AudioRecorderPlugin::StartRecording (lines 100-115): refuse when already
recording; otherwise store the path, clear `stop_requested_`, set
`is_recording_`, launch the worker, and return true. -/
def StartRecording (path : String) (st : PluginState) : Bool × PluginState :=
  if st.is_recording_ = true then (false, st)
  else
    (true,
     { st with current_file_path_ := path, stop_requested_ := false,
               is_recording_ := true, threadsLaunched := st.threadsLaunched + 1 })

/-- AudioRecorderPlugin::StopRecording (lines 117-134): empty string when not
recording; otherwise set `stop_requested_`, join the worker, clear
`is_recording_`, and return the stored path after clearing it. -/
def StopRecording (st : PluginState) : String × PluginState :=
  if st.is_recording_ = false then ("", st)
  else
    let st1 : PluginState := { st with stop_requested_ := true }
    let st2 : PluginState := { st1 with is_recording_ := false }
    (st2.current_file_path_, { st2 with current_file_path_ := "" })

/-- AudioRecorderPlugin::IsRecording (lines 136-138). -/
def IsRecording (st : PluginState) : Bool := st.is_recording_

/-- AudioRecorderPlugin::HasPermission (lines 93-98): always true. -/
def HasPermission : Bool := true

/-- AudioRecorderPlugin::HandleMethodCall (lines 52-91), restricted to the
state it touches.  The startRecording branch errors with INVALID_ARGS only
when the nested argument checks fall through. -/
def HandleMethodCall (call : MethodCall) (st : PluginState) :
    MethodResult × PluginState :=
  if call.method_name = "hasPermission" then
    (MethodResult.success (RetVal.rbool HasPermission), st)
  else if call.method_name = "startRecording" then
    match call.arguments with
    | some args =>
      match findArg args "path" with
      | some (ArgVal.str p) =>
        let s := StartRecording p st
        (MethodResult.success (RetVal.rbool s.1), s.2)
      | some ArgVal.nonStr => (MethodResult.error "INVALID_ARGS" "Path is required", st)
      | none => (MethodResult.error "INVALID_ARGS" "Path is required", st)
    | none => (MethodResult.error "INVALID_ARGS" "Path is required", st)
  else if call.method_name = "stopRecording" then
    let s := StopRecording st
    if s.1 ≠ "" then (MethodResult.success (RetVal.rstr s.1), s.2)
    else (MethodResult.error "NO_RECORDER" "No active recording", s.2)
  else if call.method_name = "isRecording" then
    (MethodResult.success (RetVal.rbool (IsRecording st)), st)
  else (MethodResult.notImplemented, st)

/-- Audio subtype GUIDs the plugin uses. -/
inductive AudioSubtype where
  | pcm : AudioSubtype
  | aac : AudioSubtype
deriving DecidableEq

/-- Parameters of the output media type the worker builds for the sink
writer (lines 259-279). -/
structure TargetFormat where
  subtype : AudioSubtype
  bitsPerSample : Nat
  samplesPerSecond : Nat
  numChannels : Nat
  avgBytesPerSecond : Nat
deriving DecidableEq

/-- The output type of lines 259-279: AAC subtype, MF_MT_AUDIO_BITS_PER_SAMPLE
16, MF_MT_AUDIO_SAMPLES_PER_SECOND 44100, MF_MT_AUDIO_NUM_CHANNELS 1,
MF_MT_AUDIO_AVG_BYTES_PER_SECOND 16000. -/
def targetOutputFormat : TargetFormat :=
  { subtype := AudioSubtype.aac, bitsPerSample := 16, samplesPerSecond := 44100,
    numChannels := 1, avgBytesPerSecond := 16000 }

/-- Platform calls the worker attempts, in the order it attempts them.
`negotiateFormat` stands for the configure-to-PCM block of lines 200-215. -/
inductive MFOp where
  | createAttributes : MFOp
  | setDeviceTypeGuid : MFOp
  | enumDeviceSources : MFOp
  | activateDevice : MFOp
  | createSourceReader : MFOp
  | negotiateFormat : MFOp
  | getCurrentMediaType : MFOp
  | createSinkWriter : MFOp
  | addStream : MFOp
  | setInputMediaType : MFOp
  | beginWriting : MFOp
  | readSample : MFOp
  | writeSample : MFOp
  | finalize : MFOp
  | closeSinkWriter : MFOp
  | closeSourceReader : MFOp
deriving DecidableEq

/-- Outcome of one `ReadSample` call (lines 334-340): a hard failure
(`FAILED(hr)`), the end-of-stream flag (with or without an accompanying
sample buffer), a delivered sample (whose subsequent `WriteSample` succeeds
or fails), or a successful call that delivers neither a sample nor the
end-of-stream flag (`pSample == nullptr`, no flag). -/
inductive ReadEvent where
  | readFail : ReadEvent
  | eos : Bool → ReadEvent
  | sample : Bool → ReadEvent
  | empty : ReadEvent
deriving DecidableEq

/-- Reason the recording loop of lines 329-361 stopped iterating. -/
inductive LoopExit where
  | stopObserved : LoopExit
  | readFailed : LoopExit
  | endOfStream : LoopExit
  | writeFailed : LoopExit
  | inputExhausted : LoopExit
deriving DecidableEq

/-- Return path taken by RecordingThread. -/
inductive ThreadExit where
  | attributesFailed : ThreadExit
  | setGuidFailed : ThreadExit
  | enumFailedOrNoDevice : ThreadExit
  | activateFailed : ThreadExit
  | sourceReaderFailed : ThreadExit
  | formatConfigFailed : ThreadExit
  | getMediaTypeFailed : ThreadExit
  | sinkWriterFailed : ThreadExit
  | addStreamFailed : ThreadExit
  | inputTypeFailed : ThreadExit
  | beginWritingFailed : ThreadExit
  | loopDone : LoopExit → ThreadExit
deriving DecidableEq

/-- True exactly on the early-return paths of lines 149-324, i.e. when some
setup step failed before the recording loop was reached. -/
def ThreadExit.isSetupFailure : ThreadExit → Bool
  | ThreadExit.loopDone _ => false
  | _ => true

/-- Ledger of native objects the worker holds: local COM objects and the two
member pointers.  `deviceHandles` counts unreleased entries of `ppDevices`;
`pendingSamples` counts IMFSample buffers never released. -/
structure Resources where
  attrs : Bool
  deviceHandles : Nat
  source : Bool
  reader : Bool
  audioType : Bool
  actualType : Bool
  sinkAttrs : Bool
  sink : Bool
  outputType : Bool
  pendingSamples : Nat
deriving DecidableEq

/-- Everything released. -/
def noResources : Resources :=
  { attrs := false, deviceHandles := 0, source := false, reader := false,
    audioType := false, actualType := false, sinkAttrs := false, sink := false,
    outputType := false, pendingSamples := 0 }

/-- Outcome environment for every fallible platform call of the setup
sequence, in source order.  `deviceCount` is what MFEnumDeviceSources
reports; `sinkAttributesCreated` models the unchecked MFCreateAttributes of
line 240. -/
structure SetupEnv where
  createAttributesOk : Bool
  setDeviceTypeGuidOk : Bool
  enumOk : Bool
  deviceCount : Nat
  activateOk : Bool
  createSourceReaderOk : Bool
  createAudioTypeOk : Bool
  setAudioMajorOk : Bool
  setAudioSubtypeOk : Bool
  setCurrentMediaTypeOk : Bool
  getCurrentMediaTypeOk : Bool
  sinkAttributesCreated : Bool
  createSinkWriterOk : Bool
  createOutputTypeOk : Bool
  setOutMajorOk : Bool
  setOutSubtypeOk : Bool
  setOutBitsOk : Bool
  setOutRateOk : Bool
  setOutChannelsOk : Bool
  setOutBytesOk : Bool
  addStreamOk : Bool
  setInputMediaTypeOk : Bool
  beginWritingOk : Bool
deriving DecidableEq

/-- What RecordingThread leaves behind: the ordered trace of platform calls
attempted, the value of `is_recording_` at thread exit (given it was true
at thread start — StartRecording sets it before launching), the resource
ledger at exit, the output format registered with the sink (once AddStream
succeeded), and the return path taken. -/
structure WorkerResult where
  trace : List MFOp
  isRecording : Bool
  res : Resources
  registeredFormat : Option TargetFormat
  exit : ThreadExit
deriving DecidableEq

/-- The setup calls of a fully successful start, in source order: device
enumeration, device activation, source-reader creation, PCM format
negotiation, reading back the negotiated format, sink-writer creation,
stream registration, input-type declaration, begin-writing. -/
def setupOrder : List MFOp :=
  [MFOp.createAttributes, MFOp.setDeviceTypeGuid, MFOp.enumDeviceSources,
   MFOp.activateDevice, MFOp.createSourceReader, MFOp.negotiateFormat,
   MFOp.getCurrentMediaType, MFOp.createSinkWriter, MFOp.addStream,
   MFOp.setInputMediaType, MFOp.beginWriting]

/-- The recording loop of lines 329-361.  `i` is the current iteration index;
the worker observes `stop_requested_` as set exactly at iterations
`i ≥ stopAt` (the flag is monotone: once set it stays set).  The guard is
checked at the top of every iteration, before the blocking `ReadSample`.
Returns the ops performed, the exit reason, and the count of sample buffers
never released (a sample accompanying the end-of-stream flag is not
released, line 347 breaks before the `if (pSample)` block). -/
def recordLoop (stopAt : Nat) : Nat → List ReadEvent → List MFOp × LoopExit × Nat
  | i, [] =>
    if stopAt ≤ i then ([], LoopExit.stopObserved, 0)
    else ([], LoopExit.inputExhausted, 0)
  | i, ReadEvent.readFail :: _ =>
    if stopAt ≤ i then ([], LoopExit.stopObserved, 0)
    else ([MFOp.readSample], LoopExit.readFailed, 0)
  | i, ReadEvent.eos hadSample :: _ =>
    if stopAt ≤ i then ([], LoopExit.stopObserved, 0)
    else ([MFOp.readSample], LoopExit.endOfStream, if hadSample then 1 else 0)
  | i, ReadEvent.sample writeOk :: rest =>
    if stopAt ≤ i then ([], LoopExit.stopObserved, 0)
    else
      if writeOk then
        (MFOp.readSample :: MFOp.writeSample :: (recordLoop stopAt (i + 1) rest).1,
         (recordLoop stopAt (i + 1) rest).2)
      else ([MFOp.readSample, MFOp.writeSample], LoopExit.writeFailed, 0)
  | i, ReadEvent.empty :: rest =>
    if stopAt ≤ i then ([], LoopExit.stopObserved, 0)
    else
      (MFOp.readSample :: (recordLoop stopAt (i + 1) rest).1,
       (recordLoop stopAt (i + 1) rest).2)

/-- AudioRecorderPlugin::RecordingThread (lines 140-378) as a function of the
platform environment.  Each early return mirrors one `if (FAILED(hr))`
block of the source, performing exactly the releases that block performs;
comments cite the source lines. -/
def RecordingThread (env : SetupEnv) (stopAt : Nat) (evs : List ReadEvent) :
    WorkerResult :=
  -- line 148: MFCreateAttributes(&pAttributes, 1)
  if env.createAttributesOk = false then
    { trace := [MFOp.createAttributes], isRecording := false, res := noResources,
      registeredFormat := none, exit := ThreadExit.attributesFailed }
  else
  -- line 156: pAttributes->SetGUID(MF_DEVSOURCE_ATTRIBUTE_SOURCE_TYPE, AUDCAP)
  if env.setDeviceTypeGuidOk = false then
    -- line 160: pAttributes->Release()
    { trace := [MFOp.createAttributes, MFOp.setDeviceTypeGuid],
      isRecording := false, res := noResources,
      registeredFormat := none, exit := ThreadExit.setGuidFailed }
  else
  -- line 166: MFEnumDeviceSources; line 167: pAttributes->Release()
  if env.enumOk = false ∨ env.deviceCount = 0 then
    -- lines 169-173: plain return; device handles exist only if the
    -- enumeration succeeded (and then there are deviceCount = 0 of them)
    { trace := [MFOp.createAttributes, MFOp.setDeviceTypeGuid,
                MFOp.enumDeviceSources],
      isRecording := false,
      res := { noResources with
               deviceHandles := if env.enumOk = true then env.deviceCount else 0 },
      registeredFormat := none, exit := ThreadExit.enumFailedOrNoDevice }
  else
  -- line 176: ppDevices[0]->ActivateObject(&pSource)
  -- lines 179-182: all device handles released, list freed
  if env.activateOk = false then
    { trace := [MFOp.createAttributes, MFOp.setDeviceTypeGuid,
                MFOp.enumDeviceSources, MFOp.activateDevice],
      isRecording := false, res := noResources,
      registeredFormat := none, exit := ThreadExit.activateFailed }
  else
  -- line 191: MFCreateSourceReaderFromMediaSource; line 192: pSource->Release()
  if env.createSourceReaderOk = false then
    { trace := [MFOp.createAttributes, MFOp.setDeviceTypeGuid,
                MFOp.enumDeviceSources, MFOp.activateDevice,
                MFOp.createSourceReader],
      isRecording := false, res := noResources,
      registeredFormat := none, exit := ThreadExit.sourceReaderFailed }
  else
  -- lines 201-215: create pAudioType, force major=Audio subtype=PCM, set it
  -- on the reader; pAudioType released (lines 213-215) before the check
  if (env.createAudioTypeOk && env.setAudioMajorOk && env.setAudioSubtypeOk &&
      env.setCurrentMediaTypeOk) = false then
    -- lines 217-223: release source_reader_
    { trace := [MFOp.createAttributes, MFOp.setDeviceTypeGuid,
                MFOp.enumDeviceSources, MFOp.activateDevice,
                MFOp.createSourceReader, MFOp.negotiateFormat],
      isRecording := false, res := noResources,
      registeredFormat := none, exit := ThreadExit.formatConfigFailed }
  else
  -- line 227: GetCurrentMediaType(&pActualType)
  if env.getCurrentMediaTypeOk = false then
    -- lines 228-234: release source_reader_
    { trace := [MFOp.createAttributes, MFOp.setDeviceTypeGuid,
                MFOp.enumDeviceSources, MFOp.activateDevice,
                MFOp.createSourceReader, MFOp.negotiateFormat,
                MFOp.getCurrentMediaType],
      isRecording := false, res := noResources,
      registeredFormat := none, exit := ThreadExit.getMediaTypeFailed }
  else
  -- lines 239-248: sink attributes (hr unchecked), MFCreateSinkWriterFromURL
  -- at the stored path, sink attributes released
  if env.createSinkWriterOk = false then
    -- lines 250-257: release pActualType and source_reader_
    { trace := [MFOp.createAttributes, MFOp.setDeviceTypeGuid,
                MFOp.enumDeviceSources, MFOp.activateDevice,
                MFOp.createSourceReader, MFOp.negotiateFormat,
                MFOp.getCurrentMediaType, MFOp.createSinkWriter],
      isRecording := false, res := noResources,
      registeredFormat := none, exit := ThreadExit.sinkWriterFailed }
  else
  -- lines 259-287: build the AAC output type (SUCCEEDED-chained sets of
  -- targetOutputFormat), AddStream only when the whole chain held;
  -- pOutputType released (lines 285-287) before the check
  if ((env.createOutputTypeOk && env.setOutMajorOk && env.setOutSubtypeOk &&
       env.setOutBitsOk && env.setOutRateOk && env.setOutChannelsOk &&
       env.setOutBytesOk) && env.addStreamOk) = false then
    -- lines 289-298: release pActualType, sink_writer_, source_reader_
    { trace := [MFOp.createAttributes, MFOp.setDeviceTypeGuid,
                MFOp.enumDeviceSources, MFOp.activateDevice,
                MFOp.createSourceReader, MFOp.negotiateFormat,
                MFOp.getCurrentMediaType, MFOp.createSinkWriter] ++
        (if (env.createOutputTypeOk && env.setOutMajorOk && env.setOutSubtypeOk &&
             env.setOutBitsOk && env.setOutRateOk && env.setOutChannelsOk &&
             env.setOutBytesOk) = true then [MFOp.addStream] else []),
      isRecording := false, res := noResources,
      registeredFormat := none, exit := ThreadExit.addStreamFailed }
  else
  -- line 301: SetInputMediaType(streamIndex, pActualType, nullptr)
  -- line 302: pActualType->Release()
  if env.setInputMediaTypeOk = false then
    -- lines 304-312: release sink_writer_ and source_reader_
    { trace := [MFOp.createAttributes, MFOp.setDeviceTypeGuid,
                MFOp.enumDeviceSources, MFOp.activateDevice,
                MFOp.createSourceReader, MFOp.negotiateFormat,
                MFOp.getCurrentMediaType, MFOp.createSinkWriter, MFOp.addStream,
                MFOp.setInputMediaType],
      isRecording := false, res := noResources,
      registeredFormat := some targetOutputFormat,
      exit := ThreadExit.inputTypeFailed }
  else
  -- line 315: BeginWriting()
  if env.beginWritingOk = false then
    -- lines 316-324: release sink_writer_ and source_reader_
    { trace := [MFOp.createAttributes, MFOp.setDeviceTypeGuid,
                MFOp.enumDeviceSources, MFOp.activateDevice,
                MFOp.createSourceReader, MFOp.negotiateFormat,
                MFOp.getCurrentMediaType, MFOp.createSinkWriter, MFOp.addStream,
                MFOp.setInputMediaType, MFOp.beginWriting],
      isRecording := false, res := noResources,
      registeredFormat := some targetOutputFormat,
      exit := ThreadExit.beginWritingFailed }
  else
  -- lines 329-361: the recording loop; lines 365-375: Finalize, release
  -- sink_writer_, release source_reader_ (in that order).  Note: this path
  -- never writes is_recording_.
  { trace := setupOrder ++ (recordLoop stopAt 0 evs).1 ++
      [MFOp.finalize, MFOp.closeSinkWriter, MFOp.closeSourceReader],
    isRecording := true,
    res := { noResources with pendingSamples := (recordLoop stopAt 0 evs).2.2 },
    registeredFormat := some targetOutputFormat,
    exit := ThreadExit.loopDone (recordLoop stopAt 0 evs).2.1 }

/-- Sequential composition used by whole-run claims: StartRecording on the
control thread, then — when a worker was launched — the complete worker
execution, observing the shared flag value it leaves behind.  Returns
StartRecording's boolean, the worker result when one ran, and the plugin
state after the worker has exited. -/
def runSession (path : String) (env : SetupEnv) (stopAt : Nat)
    (evs : List ReadEvent) (st : PluginState) :
    Bool × Option WorkerResult × PluginState :=
  let s := StartRecording path st
  if s.1 = true then
    (true, some (RecordingThread env stopAt evs),
     { s.2 with is_recording_ := (RecordingThread env stopAt evs).isRecording })
  else (false, none, s.2)

/-- Every fallible setup call succeeds and at least one device is found. -/
def setupOk (env : SetupEnv) : Prop :=
  env.createAttributesOk = true ∧ env.setDeviceTypeGuidOk = true ∧
  env.enumOk = true ∧ env.deviceCount ≠ 0 ∧ env.activateOk = true ∧
  env.createSourceReaderOk = true ∧ env.createAudioTypeOk = true ∧
  env.setAudioMajorOk = true ∧ env.setAudioSubtypeOk = true ∧
  env.setCurrentMediaTypeOk = true ∧ env.getCurrentMediaTypeOk = true ∧
  env.createSinkWriterOk = true ∧ env.createOutputTypeOk = true ∧
  env.setOutMajorOk = true ∧ env.setOutSubtypeOk = true ∧
  env.setOutBitsOk = true ∧ env.setOutRateOk = true ∧
  env.setOutChannelsOk = true ∧ env.setOutBytesOk = true ∧
  env.addStreamOk = true ∧ env.setInputMediaTypeOk = true ∧
  env.beginWritingOk = true

instance instDecidableSetupOk (env : SetupEnv) : Decidable (setupOk env) := by
  unfold setupOk
  infer_instance

/-- Number of blocking ReadSample pulls in a trace. -/
def countReads : List MFOp → Nat
  | [] => 0
  | MFOp.readSample :: rest => countReads rest + 1
  | _ :: rest => countReads rest

/-- Environment in which every platform call succeeds and one capture device
exists. -/
def happyEnv : SetupEnv :=
  { createAttributesOk := true, setDeviceTypeGuidOk := true, enumOk := true,
    deviceCount := 1, activateOk := true, createSourceReaderOk := true,
    createAudioTypeOk := true, setAudioMajorOk := true,
    setAudioSubtypeOk := true, setCurrentMediaTypeOk := true,
    getCurrentMediaTypeOk := true, sinkAttributesCreated := true,
    createSinkWriterOk := true, createOutputTypeOk := true,
    setOutMajorOk := true, setOutSubtypeOk := true, setOutBitsOk := true,
    setOutRateOk := true, setOutChannelsOk := true, setOutBytesOk := true,
    addStreamOk := true, setInputMediaTypeOk := true, beginWritingOk := true }

/-- happyEnv, except the enumeration reports zero capture devices. -/
def zeroDeviceEnv : SetupEnv := { happyEnv with deviceCount := 0 }

/-- happyEnv, except device activation fails. -/
def activateFailEnv : SetupEnv := { happyEnv with activateOk := false }

/-- happyEnv, except BeginWriting fails. -/
def beginWritingFailEnv : SetupEnv := { happyEnv with beginWritingOk := false }

/-- A plugin state with a session in progress. -/
def runningState : PluginState :=
  { current_file_path_ := "busy.m4a", is_recording_ := true,
    stop_requested_ := false, threadsLaunched := 1 }

/-- On every setup-failure return path, the worker has released every native
resource it acquired and has cleared `is_recording_`. -/
theorem setup_failure_cleanup (env : SetupEnv) (stopAt : Nat) (evs : List ReadEvent)
    (h : (RecordingThread env stopAt evs).exit.isSetupFailure = true) :
    (RecordingThread env stopAt evs).res = noResources ∧
    (RecordingThread env stopAt evs).isRecording = false := by
  by_cases h1 : env.createAttributesOk = false
  · simp [RecordingThread, h1]
  by_cases h2 : env.setDeviceTypeGuidOk = false
  · simp [RecordingThread, h1, h2]
  by_cases h3 : env.enumOk = false ∨ env.deviceCount = 0
  · rcases h3 with h3a | h3b
    · simp [RecordingThread, h1, h2, h3a, noResources]
    · simp [RecordingThread, h1, h2, h3b, noResources]
  by_cases h4 : env.activateOk = false
  · simp [RecordingThread, h1, h2, h3, h4]
  by_cases h5 : env.createSourceReaderOk = false
  · simp [RecordingThread, h1, h2, h3, h4, h5]
  by_cases h6 : (env.createAudioTypeOk && env.setAudioMajorOk &&
      env.setAudioSubtypeOk && env.setCurrentMediaTypeOk) = false
  · simp [RecordingThread, h1, h2, h3, h4, h5, h6]
  by_cases h7 : env.getCurrentMediaTypeOk = false
  · simp [RecordingThread, h1, h2, h3, h4, h5, h6, h7]
  by_cases h8 : env.createSinkWriterOk = false
  · simp [RecordingThread, h1, h2, h3, h4, h5, h6, h7, h8]
  by_cases h9 : ((env.createOutputTypeOk && env.setOutMajorOk &&
      env.setOutSubtypeOk && env.setOutBitsOk && env.setOutRateOk &&
      env.setOutChannelsOk && env.setOutBytesOk) && env.addStreamOk) = false
  · simp [RecordingThread, h1, h2, h3, h4, h5, h6, h7, h8, h9]
  by_cases h10 : env.setInputMediaTypeOk = false
  · simp [RecordingThread, h1, h2, h3, h4, h5, h6, h7, h8, h9, h10]
  by_cases h11 : env.beginWritingOk = false
  · simp [RecordingThread, h1, h2, h3, h4, h5, h6, h7, h8, h9, h10, h11]
  · simp [RecordingThread, h1, h2, h3, h4, h5, h6, h7, h8, h9, h10, h11,
      ThreadExit.isSetupFailure] at h

/-- When every setup step succeeds, RecordingThread reaches the loop and its
result is the loop-path record. -/
theorem recordingThread_setupOk (env : SetupEnv) (stopAt : Nat)
    (evs : List ReadEvent) (h : setupOk env) :
    RecordingThread env stopAt evs =
      { trace := setupOrder ++ (recordLoop stopAt 0 evs).1 ++
          [MFOp.finalize, MFOp.closeSinkWriter, MFOp.closeSourceReader],
        isRecording := true,
        res := { noResources with pendingSamples := (recordLoop stopAt 0 evs).2.2 },
        registeredFormat := some targetOutputFormat,
        exit := ThreadExit.loopDone (recordLoop stopAt 0 evs).2.1 } := by
  obtain ⟨h1, h2, h3, h4, h5, h6, h7, h8, h9, h10, h11, h12, h13, h14, h15, h16,
    h17, h18, h19, h20, h21, h22⟩ := h
  simp [RecordingThread, h1, h2, h3, h4, h5, h6, h7, h8, h9, h10, h11, h12, h13,
    h14, h15, h16, h17, h18, h19, h20, h21, h22]

/-- The pull count of the loop never exceeds the number of iterations that
run before `stop_requested_` is observed. -/
theorem recordLoop_countReads_le (stopAt : Nat) (evs : List ReadEvent) :
    ∀ i : Nat, countReads (recordLoop stopAt i evs).1 ≤ stopAt - i := by
  induction evs with
  | nil =>
    intro i
    by_cases h : stopAt ≤ i <;> simp [recordLoop, h, countReads]
  | cons e rest ih =>
    intro i
    by_cases h : stopAt ≤ i
    · cases e <;> simp [recordLoop, h, countReads]
    · cases e with
      | readFail =>
        simp only [recordLoop, if_neg h, countReads]
        omega
      | eos hadSample =>
        simp only [recordLoop, if_neg h, countReads]
        omega
      | sample writeOk =>
        by_cases hw : writeOk = true
        · have hrec := ih (i + 1)
          simp only [recordLoop, if_neg h, hw, if_pos, countReads]
          omega
        · simp only [recordLoop, if_neg h, countReads]
          rw [if_neg hw]
          simp [countReads]
          omega
      | empty =>
        have hrec := ih (i + 1)
        simp only [recordLoop, if_neg h, countReads]
        omega

/-- Claim C1 (counterexample to the claim as stated): with an environment in
which device enumeration succeeds but yields zero capture devices,
startRecording nevertheless returns true to its caller — not false — because
enumeration happens asynchronously on the worker thread after
StartRecording has already returned. -/
theorem c1_counterexample :
    (runSession "out.m4a" zeroDeviceEnv 1000 [] initialState).1 = true ∧
    Option.map WorkerResult.exit
        (runSession "out.m4a" zeroDeviceEnv 1000 [] initialState).2.1
      = some ThreadExit.enumFailedOrNoDevice := by decide

/-- Claim C1 (amended): if device enumeration yields zero capture devices,
startRecording still returns true (setup runs asynchronously on the worker);
the worker then clears `is_recording_`, releases everything it held, and
returns without ever invoking a sink-writer open — the encoder sink is never
created. -/
theorem c1_amended (p : String) (env : SetupEnv) (stopAt : Nat)
    (evs : List ReadEvent) (st : PluginState)
    (hIdle : st.is_recording_ = false)
    (h1 : env.createAttributesOk = true) (h2 : env.setDeviceTypeGuidOk = true)
    (h0 : env.deviceCount = 0) :
    (StartRecording p st).1 = true ∧
    MFOp.createSinkWriter ∉ (RecordingThread env stopAt evs).trace ∧
    (RecordingThread env stopAt evs).isRecording = false ∧
    (RecordingThread env stopAt evs).res = noResources := by
  refine ⟨by simp [StartRecording, hIdle], ?_, ?_, ?_⟩ <;>
    simp [RecordingThread, h1, h2, h0, noResources]

/-- Claim C1 witness: the amended statement at the concrete zero-device
environment. -/
theorem c1_amended_witness :
    initialState.is_recording_ = false ∧
    zeroDeviceEnv.createAttributesOk = true ∧
    zeroDeviceEnv.setDeviceTypeGuidOk = true ∧
    zeroDeviceEnv.deviceCount = 0 ∧
    ((StartRecording "out2.m4a" initialState).1 = true ∧
     MFOp.createSinkWriter ∉ (RecordingThread zeroDeviceEnv 9 []).trace ∧
     (RecordingThread zeroDeviceEnv 9 []).isRecording = false ∧
     (RecordingThread zeroDeviceEnv 9 []).res = noResources) :=
  ⟨by decide, by decide, by decide, by decide,
   c1_amended "out2.m4a" zeroDeviceEnv 9 [] initialState (by decide) (by decide)
     (by decide) (by decide)⟩

/-- Claim C2 (code-bug evidence): run start("out.m4a") with every setup step
succeeding, let the first ReadSample report end of stream, and never call
stop().  The worker does finalize the sink and close both sink and source
(its trace ends with finalize, close sink, close source), but `is_recording_`
remains true: the session never transitions to Idle, contradicting the claim
(and the spec's stated intent) that it becomes false without an explicit
stop(). -/
theorem c2_endOfStream_leaves_flag_set :
    (runSession "out.m4a" happyEnv 1000 [ReadEvent.eos false]
        initialState).2.2.is_recording_ = true ∧
    Option.map WorkerResult.trace
        (runSession "out.m4a" happyEnv 1000 [ReadEvent.eos false]
          initialState).2.1
      = some (setupOrder ++ [MFOp.readSample, MFOp.finalize,
          MFOp.closeSinkWriter, MFOp.closeSourceReader]) ∧
    Option.map WorkerResult.exit
        (runSession "out.m4a" happyEnv 1000 [ReadEvent.eos false]
          initialState).2.1
      = some (ThreadExit.loopDone LoopExit.endOfStream) := by decide

/-- Claim C3 (counterexample to the claim as stated): when device activation
fails during setup, no failure is reported to the caller of start — the run
shows StartRecording returned true even though the worker then took the
activation-failure return path. -/
theorem c3_counterexample :
    (runSession "rec.m4a" activateFailEnv 1000 [] initialState).1 = true ∧
    Option.map WorkerResult.exit
        (runSession "rec.m4a" activateFailEnv 1000 [] initialState).2.1
      = some ThreadExit.activateFailed := by decide

/-- Claim C3 (amended): setup proceeds in the exact order device selection,
source open, format negotiation, sink open, stream registration,
begin-writing; on failure of any step all resources acquired so far are
released and the session returns to Idle (no partial session survives), but
the failure is not reported to the caller of start: StartRecording has
already returned true, since setup runs asynchronously on the worker
thread. -/
theorem c3_amended (p : String) (env : SetupEnv) (stopAt : Nat)
    (evs : List ReadEvent) (st : PluginState)
    (hIdle : st.is_recording_ = false) :
    (StartRecording p st).1 = true ∧
    (setupOk env →
      ∃ rest, (RecordingThread env stopAt evs).trace = setupOrder ++ rest) ∧
    ((RecordingThread env stopAt evs).exit.isSetupFailure = true →
      (RecordingThread env stopAt evs).res = noResources ∧
      (RecordingThread env stopAt evs).isRecording = false) := by
  refine ⟨by simp [StartRecording, hIdle], ?_, setup_failure_cleanup env stopAt evs⟩
  intro h
  rw [recordingThread_setupOk env stopAt evs h]
  exact ⟨(recordLoop stopAt 0 evs).1 ++
    [MFOp.finalize, MFOp.closeSinkWriter, MFOp.closeSourceReader], rfl⟩

/-- Claim C3 witness: the amended statement at a concrete environment in
which BeginWriting fails. -/
theorem c3_amended_witness :
    initialState.is_recording_ = false ∧
    ((StartRecording "rec.m4a" initialState).1 = true ∧
     (setupOk beginWritingFailEnv →
       ∃ rest, (RecordingThread beginWritingFailEnv 5 []).trace
         = setupOrder ++ rest) ∧
     ((RecordingThread beginWritingFailEnv 5 []).exit.isSetupFailure = true →
       (RecordingThread beginWritingFailEnv 5 []).res = noResources ∧
       (RecordingThread beginWritingFailEnv 5 []).isRecording = false)) :=
  ⟨by decide, c3_amended "rec.m4a" beginWritingFailEnv 5 [] initialState (by decide)⟩

/-- Claim C4 (counterexample to the claim as stated): a startRecording call
whose "path" argument is the empty string is not rejected with INVALID_ARGS;
it proceeds and replies Success(true). -/
theorem c4_counterexample :
    (HandleMethodCall ⟨"startRecording", some [("path", ArgVal.str "")]⟩
        initialState).1
      = MethodResult.success (RetVal.rbool true) ∧
    (HandleMethodCall ⟨"startRecording", some [("path", ArgVal.str "")]⟩
        initialState).1
      ≠ MethodResult.error "INVALID_ARGS" "Path is required" := by decide

/-- Claim C4 (amended): startRecording fails with INVALID_ARGS exactly when
the supplied path argument is missing (arguments absent or not a map, no
"path" key, or a non-string value); for every supplied string path —
including the empty string — it proceeds and returns StartRecording's
boolean. -/
theorem c4_amended (args : Option (List (String × ArgVal))) (st : PluginState) :
    ((HandleMethodCall { method_name := "startRecording", arguments := args }
        st).1 = MethodResult.error "INVALID_ARGS" "Path is required"
      ↔ extractPath args = none) ∧
    (∀ p, extractPath args = some p →
      HandleMethodCall { method_name := "startRecording", arguments := args } st
        = (MethodResult.success (RetVal.rbool (StartRecording p st).1),
           (StartRecording p st).2)) := by
  cases args with
  | none => simp [HandleMethodCall, extractPath]
  | some m =>
    cases hf : findArg m "path" with
    | none => simp [HandleMethodCall, extractPath, hf]
    | some v =>
      cases v with
      | nonStr => simp [HandleMethodCall, extractPath, hf]
      | str p0 => simp [HandleMethodCall, extractPath, hf]

/-- Claim C4 witness: the amended statement applied to a concrete call whose
"path" argument is the string "a.m4a". -/
theorem c4_amended_witness :
    HandleMethodCall ⟨"startRecording", some [("path", ArgVal.str "a.m4a")]⟩
        initialState
      = (MethodResult.success
           (RetVal.rbool (StartRecording "a.m4a" initialState).1),
         (StartRecording "a.m4a" initialState).2) :=
  (c4_amended (some [("path", ArgVal.str "a.m4a")]) initialState).2 "a.m4a"
    (by decide)

/-- Claim C5 (confirmed): for every valid (non-empty) path p, StartRecording
p from an idle state returns true and sets the stored output path and the
recording flag; StopRecording then clears the flag, returns exactly p, and
clears the stored path — the session goes Running to Idle. -/
theorem c5_start_stop_roundtrip (p : String) (st : PluginState)
    (hp : p ≠ "") (hIdle : st.is_recording_ = false) :
    (StartRecording p st).1 = true ∧
    (StartRecording p st).2.is_recording_ = true ∧
    (StartRecording p st).2.current_file_path_ = p ∧
    (StopRecording (StartRecording p st).2).1 = p ∧
    (StopRecording (StartRecording p st).2).2.is_recording_ = false ∧
    (StopRecording (StartRecording p st).2).2.current_file_path_ = "" := by
  simp [StartRecording, StopRecording, hIdle]

/-- Claim C5 witness: the round trip at the concrete path "out.m4a" from the
initial state. -/
theorem c5_witness :
    "out.m4a" ≠ "" ∧ initialState.is_recording_ = false ∧
    ((StartRecording "out.m4a" initialState).1 = true ∧
     (StartRecording "out.m4a" initialState).2.is_recording_ = true ∧
     (StartRecording "out.m4a" initialState).2.current_file_path_ = "out.m4a" ∧
     (StopRecording (StartRecording "out.m4a" initialState).2).1 = "out.m4a" ∧
     (StopRecording (StartRecording "out.m4a" initialState).2).2.is_recording_
       = false ∧
     (StopRecording
        (StartRecording "out.m4a" initialState).2).2.current_file_path_ = "") :=
  ⟨by decide, by decide,
   c5_start_stop_roundtrip "out.m4a" initialState (by decide) (by decide)⟩

/-- Claim C6 (confirmed): whenever the worker loop exits — stop request, read
failure, end of stream, write failure, or input exhausted — the worker's
trace continues with exactly finalize, then close of the sink writer, then
close of the source reader, in that order; in particular finalize is
attempted even when the loop exited due to an earlier error.  (The session
reports inactive only later, when StopRecording joins the already-finished
worker, so these steps always precede it.) -/
theorem c6_finalize_then_close (env : SetupEnv) (stopAt : Nat)
    (evs : List ReadEvent) (h : setupOk env) :
    (RecordingThread env stopAt evs).trace
      = setupOrder ++ (recordLoop stopAt 0 evs).1 ++
        [MFOp.finalize, MFOp.closeSinkWriter, MFOp.closeSourceReader] := by
  rw [recordingThread_setupOk env stopAt evs h]

/-- Claim C6 witness: the trace shape at a concrete run whose loop exits with
a read failure after one successfully written sample. -/
theorem c6_witness :
    setupOk happyEnv ∧
    (RecordingThread happyEnv 2 [ReadEvent.sample true, ReadEvent.readFail]).trace
      = setupOrder ++
        (recordLoop 2 0 [ReadEvent.sample true, ReadEvent.readFail]).1 ++
        [MFOp.finalize, MFOp.closeSinkWriter, MFOp.closeSourceReader] :=
  ⟨by decide,
   c6_finalize_then_close happyEnv 2 [ReadEvent.sample true, ReadEvent.readFail]
     (by decide)⟩

/-- Claim C7 (counterexample to the claim as stated): the output type the
worker registers carries MF_MT_AUDIO_AVG_BYTES_PER_SECOND = 16000, i.e. an
average bitrate of 8 * 16000 = 128000 bits per second — 128 kbps, not the
claimed 16 kbps. -/
theorem c7_counterexample :
    Option.map (fun f => 8 * f.avgBytesPerSecond)
        (RecordingThread happyEnv 1000 []).registeredFormat = some 128000 ∧
    (128000 : Nat) ≠ 16000 := by decide

/-- Claim C7 (amended): the target format the session registers with the
encoder sink is exactly AAC, 16 bits per sample, 1 channel (mono), 44100 Hz
sample rate, and a 16000 bytes-per-second (128 kbps) average bitrate. -/
theorem c7_amended (env : SetupEnv) (stopAt : Nat) (evs : List ReadEvent)
    (h : setupOk env) :
    (RecordingThread env stopAt evs).registeredFormat
      = some { subtype := AudioSubtype.aac, bitsPerSample := 16,
               samplesPerSecond := 44100, numChannels := 1,
               avgBytesPerSecond := 16000 } := by
  rw [recordingThread_setupOk env stopAt evs h]
  rfl

/-- Claim C7 witness: the registered format at the all-success
environment. -/
theorem c7_amended_witness :
    setupOk happyEnv ∧
    (RecordingThread happyEnv 7 []).registeredFormat
      = some { subtype := AudioSubtype.aac, bitsPerSample := 16,
               samplesPerSecond := 44100, numChannels := 1,
               avgBytesPerSecond := 16000 } :=
  ⟨by decide, c7_amended happyEnv 7 [] (by decide)⟩

/-- Claim C8 (confirmed): StartRecording while a session is already running
returns false and leaves the plugin state — stored output path, both flags,
and the count of launched workers — completely unchanged; the whole run
launches no worker at all. -/
theorem c8_start_while_running (p : String) (env : SetupEnv) (stopAt : Nat)
    (evs : List ReadEvent) (st : PluginState) (h : st.is_recording_ = true) :
    StartRecording p st = (false, st) ∧
    runSession p env stopAt evs st = (false, none, st) := by
  constructor
  · simp [StartRecording, h]
  · simp [runSession, StartRecording, h]

/-- Claim C8 witness: a second start against a concrete running session. -/
theorem c8_witness :
    runningState.is_recording_ = true ∧
    (StartRecording "x.m4a" runningState = (false, runningState) ∧
     runSession "x.m4a" happyEnv 3 [] runningState = (false, none, runningState)) :=
  ⟨by decide, c8_start_while_running "x.m4a" happyEnv 3 [] runningState (by decide)⟩

/-- Claim C9 (confirmed): the loop checks `stop_requested_` at the top of
every iteration, before the blocking pull: the number of ReadSample pulls a
loop run performs never exceeds the number of iterations that begin before
the flag is observed, and a loop entered with the flag already observed
performs no operation at all — once the worker observes stop-requested it
never initiates another blocking pull. -/
theorem c9_stop_checked_before_pull (stopAt i : Nat) (evs : List ReadEvent) :
    countReads (recordLoop stopAt i evs).1 ≤ stopAt - i ∧
    (recordLoop i i evs).1 = [] := by
  refine ⟨recordLoop_countReads_le stopAt evs i, ?_⟩
  cases evs with
  | nil => simp [recordLoop]
  | cons e rest => cases e <;> simp [recordLoop]

/-- Claim C10 (confirmed): a successful read that delivers neither a sample
buffer nor the end-of-stream flag writes nothing to the sink and does not
terminate the loop or change its exit reason: n such reads contribute
exactly n ReadSample pulls (and no WriteSample) to the trace, after which
the loop continues on the remaining events as if they had come first. -/
theorem c10_empty_read_continues (stopAt n : Nat) (rest : List ReadEvent) :
    ∀ i : Nat, i + n ≤ stopAt →
      (recordLoop stopAt i (List.replicate n ReadEvent.empty ++ rest)).1
        = List.replicate n MFOp.readSample ++ (recordLoop stopAt (i + n) rest).1 ∧
      (recordLoop stopAt i (List.replicate n ReadEvent.empty ++ rest)).2
        = (recordLoop stopAt (i + n) rest).2 := by
  induction n with
  | zero => intro i h; simp
  | succ m ih =>
    intro i h
    have hlt : ¬ stopAt ≤ i := by omega
    have h2 : (i + 1) + m ≤ stopAt := by omega
    obtain ⟨ha, hb⟩ := ih (i + 1) h2
    have hadd : i + 1 + m = i + (m + 1) := by omega
    rw [hadd] at ha hb
    simp [List.replicate_succ, recordLoop, hlt, ha, hb]

/-- Claim C10 witness: two empty reads followed by end of stream, with the
stop request far in the future. -/
theorem c10_witness :
    0 + 2 ≤ 5 ∧
    ((recordLoop 5 0 (List.replicate 2 ReadEvent.empty ++ [ReadEvent.eos false])).1
       = List.replicate 2 MFOp.readSample ++
         (recordLoop 5 (0 + 2) [ReadEvent.eos false]).1 ∧
     (recordLoop 5 0 (List.replicate 2 ReadEvent.empty ++ [ReadEvent.eos false])).2
       = (recordLoop 5 (0 + 2) [ReadEvent.eos false]).2) :=
  ⟨by decide, c10_empty_read_continues 5 2 [ReadEvent.eos false] 0 (by decide)⟩

end AudioRecorder
